import Mathlib

/-!
Verification of the merge-conflicts dialog core
(`src/app/src/ui/merge-conflicts/merge-conflicts-dialog.tsx`).

The component is a React class with empty local state; all decisions are
pure functions of its props, and the two terminal handlers (`onSubmit`,
`onCancel`) perform a straight-line sequence of side effects.  We embed
the data model (`AppFileStatus`, `WorkingDirectoryFileChange`,
`WorkingDirectoryStatus`, the dialog props), the pure helpers
(`getUnmergedFiles`, `calculateConflicts`, the summary message), and the
handlers as functions from props to the ordered list of effects they
dispatch (sequencing of awaited calls is the list order).
-/

namespace MergeConflicts

/-- Status of a file in the working directory (`AppFileStatus` in
`app/src/models/status`).  Only `Conflicted` and `Resolved` matter to the
dialog; the other constructors stand for the remaining non-merge
statuses. -/
inductive AppFileStatus
  | New
  | Modified
  | Deleted
  | Copied
  | Renamed
  | Conflicted
  | Resolved
  deriving DecidableEq, Repr

/-- One file touched by the merge (`WorkingDirectoryFileChange`): a path,
a status, and the number of conflict markers found in the file. -/
structure WorkingDirectoryFileChange where
  path : String
  status : AppFileStatus
  conflictMarkers : Nat
  deriving DecidableEq, Repr

/-- The working-directory status snapshot (`WorkingDirectoryStatus`):
the ordered list of file change records. -/
structure WorkingDirectoryStatus where
  files : List WorkingDirectoryFileChange
  deriving DecidableEq, Repr

/-- A repository, identified by its path (only `repository.path` is read
by the dialog). -/
structure Repository where
  path : String
  deriving DecidableEq, Repr

/-- The tab of the repository view selected by
`dispatcher.changeRepositorySection` (`RepositorySectionTab`). -/
inductive RepositorySectionTab
  | Changes
  | History
  deriving DecidableEq, Repr

/-- The popup payload passed to `dispatcher.showPopup` by `onCancel`:
`{ type: PopupType.AbortMerge, repository, currentBranch,
comparisonBranch }`. -/
structure AbortMergePopup where
  repository : Repository
  currentBranch : String
  comparisonBranch : String
  deriving DecidableEq, Repr

/-- The props of `MergeConflictsDialog` that feed its decision logic and
side effects (`IMergeConflictsDialogProps`; the editor/shell callbacks
and `externalEditorName` are presentation-only and carry no data the
handlers read). -/
structure MergeConflictsDialogProps where
  repository : Repository
  status : WorkingDirectoryStatus
  currentBranch : String
  comparisonBranch : String
  deriving DecidableEq, Repr

/-- One observable side effect dispatched by the dialog's handlers.  A
handler run is modelled as the ordered list of effects it performs;
awaited asynchronous calls occupy their position in that order. -/
inductive Effect
  | createMergeCommit (repository : Repository)
      (files : List WorkingDirectoryFileChange)
  | changeRepositorySection (repository : Repository)
      (tab : RepositorySectionTab)
  | abortMerge (repository : Repository)
  | showPopup (popup : AbortMergePopup)
  | dismissed
  deriving DecidableEq, Repr

/-- `getUnmergedFiles`: filters the snapshot's files to those with
status `Conflicted` or `Resolved`. -/
def getUnmergedFiles (status : WorkingDirectoryStatus) :
    List WorkingDirectoryFileChange :=
  status.files.filter fun file =>
    file.status == AppFileStatus.Conflicted ||
      file.status == AppFileStatus.Resolved

/-- `calculateConflicts`: `Math.ceil(conflictMarkers / 3)`, the number
of conflicts indicated by a marker count (ceiling division of a natural
number by 3 is `(n + 2) / 3` in truncating division). -/
def calculateConflicts (conflictMarkers : Nat) : Nat :=
  (conflictMarkers + 2) / 3

/-- The text of the `h3` summary produced by
`renderUnmergedFilesSummary`: singular for a count of exactly 1, plural
otherwise. -/
def renderUnmergedFilesSummaryMessage (unmergedFiles : Nat) : String :=
  if unmergedFiles == 1 then "1 conflicted file"
  else toString unmergedFiles ++ " conflicted files"

/-- `onSubmit`: awaits `dispatcher.createMergeCommit(repository,
status.files)`, then calls `dispatcher.changeRepositorySection(repository,
Changes)`, then `onDismissed()`. -/
def onSubmit (props : MergeConflictsDialogProps) : List Effect :=
  [ Effect.createMergeCommit props.repository props.status.files
  , Effect.changeRepositorySection props.repository
      RepositorySectionTab.Changes
  , Effect.dismissed ]

/-- `onCancel`: recomputes whether any unmerged file is `Resolved`; if
none is, awaits `dispatcher.abortMerge(repository)` and dismisses;
otherwise dismisses and shows the `AbortMerge` popup with the current
and comparison branch names. -/
def onCancel (props : MergeConflictsDialogProps) : List Effect :=
  let anyResolvedFiles :=
    (getUnmergedFiles props.status).any fun f =>
      f.status == AppFileStatus.Resolved
  if !anyResolvedFiles then
    [Effect.abortMerge props.repository, Effect.dismissed]
  else
    [ Effect.dismissed
    , Effect.showPopup
        ⟨props.repository, props.currentBranch, props.comparisonBranch⟩ ]

/-- `render` computes `anyConflictedFiles` over the unmerged files and
passes it as the submit button's `disabled` flag. -/
def anyConflictedFiles (props : MergeConflictsDialogProps) : Bool :=
  (getUnmergedFiles props.status).any fun f =>
    f.status == AppFileStatus.Conflicted

/-- The `disabled` attribute of the submit ("Commit merge") button in
`render`: `disabled={anyConflictedFiles}`. -/
def submitButtonDisabled (props : MergeConflictsDialogProps) : Bool :=
  anyConflictedFiles props

/-- The configuration `render` hands to the `Dialog` element: the
`dismissable` flag and the handler effect traces wired to `onDismissed`
and `onSubmit`. -/
structure DialogConfig where
  dismissable : Bool
  onDismissedEffects : List Effect
  onSubmitEffects : List Effect
  deriving DecidableEq, Repr

/-- The `Dialog` element produced by `render`: `dismissable={false}`,
`onDismissed={this.onCancel}`, `onSubmit={this.onSubmit}`. -/
def renderDialogConfig (props : MergeConflictsDialogProps) : DialogConfig :=
  { dismissable := false
  , onDismissedEffects := onCancel props
  , onSubmitEffects := onSubmit props }

/-- Modelled from the spec: the `Dialog` component itself lives outside
the analysed source (`app/src/ui/dialog`).  Per the spec's concurrency
section, a generic dismiss action (escape key, backdrop click, window
close button — anything other than the commit and cancel buttons) is
delivered to the dialog's `onDismissed` handler only when the dialog is
dismissable; a non-dismissable dialog swallows it, performing no
effects. -/
def genericDismissEffects (config : DialogConfig) : List Effect :=
  if config.dismissable then config.onDismissedEffects else []

/-- Whether an effect trace triggers the external abort-merge
operation. -/
def callsAbortMerge (trace : List Effect) : Bool :=
  trace.any fun e =>
    match e with
    | Effect.abortMerge _ => true
    | _ => false

/-- Whether an effect trace triggers the external finalize-merge
(create-merge-commit) operation. -/
def callsCreateMergeCommit (trace : List Effect) : Bool :=
  trace.any fun e =>
    match e with
    | Effect.createMergeCommit _ _ => true
    | _ => false

/-- Whether an effect trace requests a popup (the abort-merge
confirmation dialog). -/
def callsShowPopup (trace : List Effect) : Bool :=
  trace.any fun e =>
    match e with
    | Effect.showPopup _ => true
    | _ => false

/-- The file list handed to the finalize-merge operation by a trace, if
the trace triggers one. -/
def mergeCommitFiles (trace : List Effect) :
    Option (List WorkingDirectoryFileChange) :=
  trace.findSome? fun e =>
    match e with
    | Effect.createMergeCommit _ files => some files
    | _ => none

/-- `Nat.toDigitsCore` only ever prepends characters, so its output is at
least as long as the accumulator it starts from. -/
lemma toDigitsCore_len_ge (b : Nat) :
    ∀ (f n : Nat) (l : List Char), l.length ≤ (Nat.toDigitsCore b f n l).length := by
  intro f
  induction f with
  | zero => intro n l; simp [Nat.toDigitsCore]
  | succ f ih =>
    intro n l
    simp only [Nat.toDigitsCore]
    split
    · simp
    · exact le_trans (by simp) (ih _ _)

/-- The decimal rendering of a natural number is never the empty
string. -/
lemma repr_len_pos (n : Nat) : 1 ≤ (Nat.repr n).length := by
  show 1 ≤ (Nat.toDigitsCore 10 (n + 1) n []).asString.length
  have h : (Nat.toDigitsCore 10 (n + 1) n []).asString.length
      = (Nat.toDigitsCore 10 (n + 1) n []).length := rfl
  rw [h]
  simp only [Nat.toDigitsCore]
  split
  · simp
  · exact le_trans (by simp) (toDigitsCore_len_ge 10 _ _ _)

/-- C1: for every list of unmerged file records, the commit action is
enabled (the submit button is not disabled) if and only if no record in
the list has status `Conflicted`. -/
theorem commit_enabled_iff_no_conflicted (props : MergeConflictsDialogProps) :
    submitButtonDisabled props = false ↔
      ∀ f ∈ getUnmergedFiles props.status,
        f.status ≠ AppFileStatus.Conflicted := by
  simp [submitButtonDisabled, anyConflictedFiles, List.any_eq_false]

/-- C2: when no unmerged file record has status `Resolved`, cancel
triggers the external abort-merge operation and then dismisses the
dialog, and never requests the abort-confirmation popup. -/
theorem cancel_no_resolved_aborts_directly (props : MergeConflictsDialogProps)
    (h : ∀ f ∈ getUnmergedFiles props.status,
      f.status ≠ AppFileStatus.Resolved) :
    onCancel props = [Effect.abortMerge props.repository, Effect.dismissed] ∧
      callsShowPopup (onCancel props) = false := by
  have hany : ((getUnmergedFiles props.status).any fun f =>
      f.status == AppFileStatus.Resolved) = false := by
    simp only [List.any_eq_false, beq_iff_eq]
    exact h
  constructor
  · simp [onCancel, hany]
  · simp [onCancel, hany, callsShowPopup]

theorem cancel_no_resolved_aborts_directly_witness :
    onCancel ⟨⟨"repo"⟩, ⟨[⟨"a.txt", AppFileStatus.Conflicted, 3⟩]⟩,
        "master", "feature"⟩ =
      [Effect.abortMerge ⟨"repo"⟩, Effect.dismissed] ∧
    callsShowPopup (onCancel ⟨⟨"repo"⟩,
      ⟨[⟨"a.txt", AppFileStatus.Conflicted, 3⟩]⟩,
        "master", "feature"⟩) = false :=
  cancel_no_resolved_aborts_directly
    ⟨⟨"repo"⟩, ⟨[⟨"a.txt", AppFileStatus.Conflicted, 3⟩]⟩,
      "master", "feature"⟩ (by decide)

/-- C3: when at least one unmerged file record has status `Resolved`,
cancel does not call abort-merge; it dismisses the dialog and requests
the abort-confirmation popup carrying the current and comparison branch
names. -/
theorem cancel_with_resolved_requests_confirmation
    (props : MergeConflictsDialogProps)
    (h : ∃ f ∈ getUnmergedFiles props.status,
      f.status = AppFileStatus.Resolved) :
    onCancel props =
      [ Effect.dismissed
      , Effect.showPopup
          ⟨props.repository, props.currentBranch, props.comparisonBranch⟩ ] ∧
    callsAbortMerge (onCancel props) = false := by
  have hany : ((getUnmergedFiles props.status).any fun f =>
      f.status == AppFileStatus.Resolved) = true := by
    simp only [List.any_eq_true, beq_iff_eq]
    exact h
  constructor
  · simp [onCancel, hany]
  · simp [onCancel, hany, callsAbortMerge]

theorem cancel_with_resolved_requests_confirmation_witness :
    onCancel ⟨⟨"repo"⟩, ⟨[⟨"b.txt", AppFileStatus.Resolved, 0⟩]⟩,
        "master", "feature"⟩ =
      [Effect.dismissed, Effect.showPopup ⟨⟨"repo"⟩, "master", "feature"⟩] ∧
    callsAbortMerge (onCancel ⟨⟨"repo"⟩,
      ⟨[⟨"b.txt", AppFileStatus.Resolved, 0⟩]⟩, "master", "feature"⟩) = false :=
  cancel_with_resolved_requests_confirmation
    ⟨⟨"repo"⟩, ⟨[⟨"b.txt", AppFileStatus.Resolved, 0⟩]⟩,
      "master", "feature"⟩ ⟨⟨"b.txt", AppFileStatus.Resolved, 0⟩, by decide, rfl⟩

/-- C4: the conflict-count derivation is `⌈m / 3⌉` for every
non-negative marker count `m`; it maps 3 to 1, 4 to 2, 6 to 2 and 7 to
3, and never returns zero for positive `m`. -/
theorem calculateConflicts_is_ceil_div_three (m : Nat) :
    ((calculateConflicts m : ℤ) = ⌈(m : ℚ) / 3⌉) ∧
    calculateConflicts 3 = 1 ∧ calculateConflicts 4 = 2 ∧
    calculateConflicts 6 = 2 ∧ calculateConflicts 7 = 3 ∧
    (0 < m → calculateConflicts m ≠ 0) := by
  refine ⟨?_, rfl, rfl, rfl, rfl, ?_⟩
  · symm
    rw [Int.ceil_eq_iff]
    have hk1 : 3 * ((m + 2) / 3) ≤ m + 2 := by omega
    have hk3 : m ≤ 3 * ((m + 2) / 3) := by omega
    have hq1 : (3 : ℚ) * (((m + 2) / 3 : ℕ) : ℚ) ≤ (m : ℚ) + 2 := by
      exact_mod_cast hk1
    have hq3 : (m : ℚ) ≤ 3 * (((m + 2) / 3 : ℕ) : ℚ) := by exact_mod_cast hk3
    have h3 : (0:ℚ) < 3 := by norm_num
    have hcast : (((calculateConflicts m : ℤ)) : ℚ)
        = (((m + 2) / 3 : ℕ) : ℚ) := by
      exact_mod_cast rfl
    rw [hcast]
    constructor
    · rw [lt_div_iff₀ h3]
      linarith
    · rw [div_le_iff₀ h3]
      linarith
  · intro hm
    simp only [calculateConflicts]
    omega

theorem calculateConflicts_is_ceil_div_three_witness :
    calculateConflicts 7 ≠ 0 :=
  (calculateConflicts_is_ceil_div_three 7).2.2.2.2.2 (by decide)

/-- C5: the unmerged-file selection returns exactly the records whose
status is `Resolved` or `Conflicted`, no others, and — being a sublist
of the snapshot's file list — preserves its original ordering. -/
theorem getUnmergedFiles_exactly_resolved_or_conflicted
    (status : WorkingDirectoryStatus) :
    (getUnmergedFiles status).Sublist status.files ∧
    ∀ f, f ∈ getUnmergedFiles status ↔
      f ∈ status.files ∧
        (f.status = AppFileStatus.Resolved ∨
          f.status = AppFileStatus.Conflicted) := by
  constructor
  · exact List.filter_sublist _
  · intro f
    simp only [getUnmergedFiles, List.mem_filter, Bool.or_eq_true, beq_iff_eq]
    tauto

/-- C6: the commit handler's effects happen in the order finalize-merge
(awaited), then switch to the changes view, then dismiss — the trace is
exactly that sequence, never any other order. -/
theorem submit_finalize_then_navigate_then_dismiss
    (props : MergeConflictsDialogProps) :
    onSubmit props =
      [ Effect.createMergeCommit props.repository props.status.files
      , Effect.changeRepositorySection props.repository
          RepositorySectionTab.Changes
      , Effect.dismissed ] := rfl

/-- C7: a generic dismiss action on the rendered dialog triggers no
merge operation: the dialog is rendered non-dismissable, so the dismiss
is swallowed and neither finalize-merge nor abort-merge runs. -/
theorem generic_dismiss_triggers_no_merge_operation
    (props : MergeConflictsDialogProps) :
    callsCreateMergeCommit
        (genericDismissEffects (renderDialogConfig props)) = false ∧
    callsAbortMerge
        (genericDismissEffects (renderDialogConfig props)) = false :=
  ⟨rfl, rfl⟩

/-- C8: the cancel decision is a pure function of the snapshot seen at
invocation time: the component retains no state, so two cancel
invocations over the same current snapshot take the same branch (direct
abort vs confirmation detour) whatever the other props or any earlier
snapshot were. -/
theorem cancel_decision_depends_only_on_current_snapshot
    (p q : MergeConflictsDialogProps) (h : p.status = q.status) :
    callsAbortMerge (onCancel p) = callsAbortMerge (onCancel q) ∧
    callsShowPopup (onCancel p) = callsShowPopup (onCancel q) := by
  unfold onCancel
  rw [h]
  by_cases hb : ((getUnmergedFiles q.status).any fun f =>
      f.status == AppFileStatus.Resolved) = true
  · simp [hb, callsAbortMerge, callsShowPopup]
  · simp only [Bool.not_eq_true] at hb
    simp [hb, callsAbortMerge, callsShowPopup]

theorem cancel_decision_depends_only_on_current_snapshot_witness :
    callsAbortMerge (onCancel ⟨⟨"repo"⟩,
        ⟨[⟨"b.txt", AppFileStatus.Resolved, 0⟩]⟩, "master", "feature"⟩) =
      callsAbortMerge (onCancel ⟨⟨"other"⟩,
        ⟨[⟨"b.txt", AppFileStatus.Resolved, 0⟩]⟩, "dev", "topic"⟩) ∧
    callsShowPopup (onCancel ⟨⟨"repo"⟩,
        ⟨[⟨"b.txt", AppFileStatus.Resolved, 0⟩]⟩, "master", "feature"⟩) =
      callsShowPopup (onCancel ⟨⟨"other"⟩,
        ⟨[⟨"b.txt", AppFileStatus.Resolved, 0⟩]⟩, "dev", "topic"⟩) :=
  cancel_decision_depends_only_on_current_snapshot
    ⟨⟨"repo"⟩, ⟨[⟨"b.txt", AppFileStatus.Resolved, 0⟩]⟩, "master", "feature"⟩
    ⟨⟨"other"⟩, ⟨[⟨"b.txt", AppFileStatus.Resolved, 0⟩]⟩, "dev", "topic"⟩
    rfl

/-- C9: the summary label is singular exactly for a count of 1 and uses
the plural template otherwise; the two-file snapshot with one
`Conflicted` and one `Resolved` record yields "2 conflicted files". -/
theorem summary_singular_iff_count_one (n : Nat) :
    (renderUnmergedFilesSummaryMessage n = "1 conflicted file" ↔ n = 1) ∧
    (n ≠ 1 → renderUnmergedFilesSummaryMessage n
      = toString n ++ " conflicted files") ∧
    renderUnmergedFilesSummaryMessage
      (getUnmergedFiles ⟨[⟨"a.txt", AppFileStatus.Conflicted, 3⟩,
        ⟨"b.txt", AppFileStatus.Resolved, 0⟩]⟩).length
      = "2 conflicted files" := by
  have hplural : ∀ k : Nat, k ≠ 1 →
      renderUnmergedFilesSummaryMessage k
        = toString k ++ " conflicted files" := by
    intro k hk
    simp [renderUnmergedFilesSummaryMessage, hk]
  refine ⟨⟨fun hmsg => ?_, fun hn => by subst hn; rfl⟩, hplural n, by decide⟩
  by_contra hn
  have hlen : (toString n ++ " conflicted files").length
      = ("1 conflicted file").length := by
    rw [← hplural n hn, hmsg]
  rw [String.length_append] at hlen
  have h1 : 1 ≤ (toString n).length := repr_len_pos n
  have e1 : (" conflicted files").length = 17 := rfl
  have e2 : ("1 conflicted file").length = 17 := rfl
  rw [e1, e2] at hlen
  omega

theorem summary_singular_iff_count_one_witness :
    renderUnmergedFilesSummaryMessage 3 = toString 3 ++ " conflicted files" :=
  (summary_singular_iff_count_one 3).2.1 (by decide)

/-- C10: the commit handler passes finalize-merge the complete file list
of the current snapshot, all statuses included — not the filtered
unmerged subset, from which it differs whenever the snapshot holds a
file of another status. -/
theorem submit_passes_full_snapshot_file_list :
    (∀ props : MergeConflictsDialogProps,
      mergeCommitFiles (onSubmit props) = some props.status.files) ∧
    mergeCommitFiles (onSubmit ⟨⟨"repo"⟩,
        ⟨[⟨"a.txt", AppFileStatus.Conflicted, 3⟩,
          ⟨"c.txt", AppFileStatus.Modified, 0⟩]⟩, "master", "feature"⟩) ≠
      some (getUnmergedFiles
        ⟨[⟨"a.txt", AppFileStatus.Conflicted, 3⟩,
          ⟨"c.txt", AppFileStatus.Modified, 0⟩]⟩) :=
  ⟨fun _ => rfl, by decide⟩

end MergeConflicts
